import Mathlib

/-!
Shallow embedding of the travel-planner backend (`src/main.py`) and the parts
of `src/schemas.py` the claims depend on.  Python strings are modelled as
Lean `String` (a list of code points, matching Python's per-character
semantics for slicing and mapping); `str.lower` is modelled by
`Char.toLower` per character (faithful on the ASCII data the budget keys use);
the SHA-256 hex digest is an external library call and is modelled as an
abstract function parameter.  The MongoDB store is modelled as a Lean list of
documents, with `find_one` as `List.find?` (first match in natural order) and
`find(...).sort("created_at", -1)` as a filter followed by a sort that is
descending on `created_at`.
-/

namespace TravelPlanner

/-- Model of Python `x or default` for an optional string: `None` and the
empty string are falsy and yield the default. -/
def pyOrStr (x : Option String) (default : String) : String :=
  match x with
  | none => default
  | some s => if s = "" then default else s

/-- Model of Python `str.lower()`, per code point (`Char.toLower` lowers the
ASCII letters, which covers the budget keys compared against). -/
def pyLower (s : String) : String :=
  String.mk (s.data.map Char.toLower)

/-- Characters removed by Python `str.strip()` with no argument (the ASCII
whitespace; exotic Unicode spaces do not occur in the modelled data). -/
def isPySpace (c : Char) : Bool :=
  c = ' ' || c = '\t' || c = '\n' || c = '\x0d' || c = '\x0b' || c = '\x0c'

/-- Model of Python `str.strip()`: drop leading and trailing whitespace. -/
def pyStrip (s : String) : String :=
  String.mk (((s.data.dropWhile isPySpace).reverse.dropWhile isPySpace).reverse)

/-- If `pat` is a leading segment of `s`, return the remainder of `s`. -/
def dropPat : List Char → List Char → Option (List Char)
  | [], s => some s
  | _ :: _, [] => none
  | p :: ps, c :: cs => if p = c then dropPat ps cs else none

/-- Left-to-right, non-overlapping removal of every occurrence of `pat`,
fuelled for termination (the fuel is always sufficient at the call site). -/
def replaceAllAux : Nat → List Char → List Char → List Char
  | 0, _, _ => []
  | _ + 1, _, [] => []
  | fuel + 1, pat, c :: cs =>
    match dropPat pat (c :: cs) with
    | some rest => replaceAllAux fuel pat rest
    | none => c :: replaceAllAux fuel pat cs

/-- Model of Python `s.replace(pat, "")`: removes every occurrence of `pat`
anywhere in `s`, scanning left to right. -/
def pyReplaceAll (s pat : String) : String :=
  String.mk (replaceAllAux (s.data.length + 1) pat.data s.data)

/-- Model of Python `prompt[:80]`: the first 80 code points. -/
def pyTake80 (s : String) : String :=
  String.mk (s.data.take 80)

/-- A document of the `user` collection (`schemas.py`, class `User`), with the
store-assigned `_id` modelled as a natural number. -/
structure UserDoc where
  id : Nat
  name : String
  email : String
  password_hash : String
  salt : String
  tokens : List String
  deriving Repr, DecidableEq

/-- One day of a generated itinerary (the dict built in
`_generate_itinerary`). -/
structure DayPlan where
  day : Nat
  theme : String
  morning : String
  afternoon : String
  evening : String
  deriving Repr, DecidableEq

/-- A document of the `trip` collection (the dict built in `create_trip`),
with ids and timestamps modelled as natural numbers. -/
structure TripDoc where
  user_id : Nat
  title : String
  prompt : String
  days : Int
  itinerary : List DayPlan
  destination : Option String
  budget : Option String
  created_at : Nat
  deriving Repr, DecidableEq

/-- An `HTTPException` raised by a route: status code and detail message. -/
structure HTTPError where
  status : Nat
  detail : String
  deriving Repr, DecidableEq

/-- `_hash_password(password, salt)`: the SHA-256 hex digest of
`salt + password`; the digest function itself is the abstract parameter
`sha256hex`. -/
def hashPassword (sha256hex : String → String) (password salt : String) : String :=
  sha256hex (salt ++ password)

/-- `_get_user_by_email`: `db["user"].find_one({"email": email})`, the first
user document whose `email` equals the argument exactly. -/
def getUserByEmail (store : List UserDoc) (email : String) : Option UserDoc :=
  store.find? (fun u => u.email = email)

/-- `_get_user_by_token`: `None` on an empty token, else
`db["user"].find_one({"tokens": token})` — the first user document whose
`tokens` array contains the exact token. -/
def getUserByToken (store : List UserDoc) (token : String) : Option UserDoc :=
  if token = "" then none
  else store.find? (fun u => decide (token ∈ u.tokens))

/-- The token extraction common to `me`, `create_trip` and `list_trips`:
`(authorization or "").replace("Bearer ", "").strip()`. -/
def extractToken (authorization : Option String) : String :=
  pyStrip (pyReplaceAll (authorization.getD "") "Bearer ")

/-- Resolution of an `Authorization` header to a user, as the code does it. -/
def resolveUser (store : List UserDoc) (authorization : Option String) :
    Option UserDoc :=
  getUserByToken store (extractToken authorization)

/-- Modelled from the spec: drop one leading `"Bearer "` segment if present,
leave the string unchanged otherwise. -/
def dropLeadingBearer (s : List Char) : List Char :=
  match dropPat "Bearer ".data s with
  | some rest => rest
  | none => s

/-- Modelled from the spec's words for `resolve`: strip only a leading
`"Bearer "` (tolerant of absence) and surrounding whitespace, then look up
the exact remaining token.  Used to compare the spec's description with the
code's `resolveUser`. -/
def resolveUserSpec (store : List UserDoc) (authorization : Option String) :
    Option UserDoc :=
  getUserByToken store
    (pyStrip (String.mk (dropLeadingBearer (authorization.getD "").data)))

/-- The `login` route up to the credential decision: look the user up by
email; on a miss or on a digest mismatch raise 401 "Invalid credentials",
otherwise accept the user.  (Token issuance and the store update that follow
acceptance are outside this claim's scope.) -/
def loginCheck (sha256hex : String → String) (store : List UserDoc)
    (email password : String) : Except HTTPError UserDoc :=
  match getUserByEmail store email with
  | none => .error ⟨401, "Invalid credentials"⟩
  | some user =>
    if hashPassword sha256hex password user.salt = user.password_hash then
      .ok user
    else
      .error ⟨401, "Invalid credentials"⟩

/-- The three fixed hint triples of `_generate_itinerary`. -/
def shoestringHints : List String :=
  ["street food", "free walking tours", "public transit"]

def standardHints : List String :=
  ["local bistros", "top sights", "rideshare"]

def luxuryHints : List String :=
  ["fine dining", "private tours", "chauffeur"]

/-- `budget_hint.get(key, ...)` without the default: the dictionary lookup. -/
def budgetHintGet (key : String) : Option (List String) :=
  if key = "shoestring" then some shoestringHints
  else if key = "standard" then some standardHints
  else if key = "luxury" then some luxuryHints
  else none

/-- `budget_hint.get((budget or "standard").lower(), budget_hint["standard"])`. -/
def resolveHints (budget : Option String) : List String :=
  (budgetHintGet (pyLower (pyOrStr budget "standard"))).getD standardHints

/-- The day-plan dict built for day `d` inside the loop of
`_generate_itinerary`. -/
def mkDayPlan (hints : List String) (prompt : String)
    (destination : Option String) (d : Nat) : DayPlan :=
  { day := d
  , theme := "Day " ++ toString d ++ " • " ++ pyOrStr destination "Explorer"
  , morning := "Start with " ++ hints.getD 0 ""
      ++ " near the main square. Stroll through a scenic district inspired by: "
      ++ pyTake80 prompt
  , afternoon := "Visit two must‑see spots. Consider a museum or viewpoint. Use "
      ++ hints.getD 1 "" ++ "."
  , evening := "Dinner with a view, then a relaxing walk. End with "
      ++ hints.getD 2 "" ++ " back to stay." }

/-- `_generate_itinerary(prompt, days, destination, budget)`: one DayPlan per
`d in range(1, days + 1)`. -/
def generateItinerary (prompt : String) (days : Nat)
    (destination budget : Option String) : List DayPlan :=
  (List.range days).map
    (fun i => mkDayPlan (resolveHints budget) prompt destination (i + 1))

/-- The body of a `POST /api/trips` request after JSON decoding but before
pydantic validation (`days` still an arbitrary optional integer). -/
structure RawTripCreate where
  prompt : String
  days : Option Int
  destination : Option String
  budget : Option String
  title : Option String
  deriving Repr, DecidableEq

/-- `TripCreateRequest` after validation: `days` is in range. -/
structure TripCreateRequest where
  prompt : String
  days : Int
  destination : Option String
  budget : Option String
  title : Option String
  deriving Repr, DecidableEq

/-- The pydantic constraint `days: int = Field(3, ge=1, le=30)`: absent means
3, present values must lie in `1..30`. -/
def validateDays (days : Option Int) : Except String Int :=
  match days with
  | none => .ok 3
  | some d => if 1 ≤ d ∧ d ≤ 30 then .ok d else .error "validation error"

/-- Request-boundary validation of `TripCreateRequest` (pydantic runs it
before the route handler). -/
def parseTripCreate (raw : RawTripCreate) : Option TripCreateRequest :=
  match validateDays raw.days with
  | .error _ => none
  | .ok d => some ⟨raw.prompt, d, raw.destination, raw.budget, raw.title⟩

/-- `req.title or (req.destination or "Custom Trip") + f" • {req.days} days"`. -/
def buildTitle (req : TripCreateRequest) : String :=
  pyOrStr req.title
    (pyOrStr req.destination "Custom Trip" ++ " • " ++ toString req.days ++ " days")

/-- The trip document assembled by `create_trip` for an authenticated user
(`now` stands for `datetime.now(timezone.utc)`). -/
def createTripDoc (userId : Nat) (req : TripCreateRequest) (now : Nat) :
    TripDoc :=
  { user_id := userId
  , title := buildTitle req
  , prompt := req.prompt
  , days := req.days
  , itinerary := generateItinerary req.prompt req.days.toNat req.destination req.budget
  , destination := req.destination
  , budget := req.budget
  , created_at := now }

/-- The `POST /api/trips` pipeline: body validation, then bearer resolution,
then itinerary generation and persistence.  Returns the response and the trip
collection after the request. -/
def postTrips (users : List UserDoc) (trips : List TripDoc)
    (authorization : Option String) (raw : RawTripCreate) (now : Nat) :
    Except HTTPError TripDoc × List TripDoc :=
  match parseTripCreate raw with
  | none => (.error ⟨422, "validation error"⟩, trips)
  | some req =>
    match resolveUser users authorization with
    | none => (.error ⟨401, "Unauthorized"⟩, trips)
    | some user =>
      let doc := createTripDoc user.id req now
      (.ok doc, trips ++ [doc])

/-- The descending-`created_at` order used by
`.sort("created_at", -1)`. -/
def createdDesc (a b : TripDoc) : Prop :=
  b.created_at ≤ a.created_at

instance : DecidableRel createdDesc :=
  fun a b => Nat.decLe b.created_at a.created_at

instance : IsTotal TripDoc createdDesc :=
  ⟨fun a b => (Nat.le_total b.created_at a.created_at).imp id id⟩

instance : IsTrans TripDoc createdDesc :=
  ⟨fun _ _ _ hab hbc => Nat.le_trans hbc hab⟩

/-- The `GET /api/trips` pipeline: bearer resolution, then
`db["trip"].find({"user_id": uid}).sort("created_at", -1)`. -/
def listTripsHandler (users : List UserDoc) (trips : List TripDoc)
    (authorization : Option String) : Except HTTPError (List TripDoc) :=
  match resolveUser users authorization with
  | none => .error ⟨401, "Unauthorized"⟩
  | some user =>
    .ok (List.insertionSort createdDesc
      (trips.filter (fun t => t.user_id = user.id)))

/-! Helper lemmas shared by the claim theorems. -/

theorem pyLower_eq_empty_iff (s : String) : pyLower s = "" ↔ s = "" := by
  obtain ⟨l⟩ := s
  simp [pyLower, String.ext_iff]

theorem loginCheck_found (sha256hex : String → String) (store : List UserDoc)
    (email password : String) (w : UserDoc)
    (hfind : getUserByEmail store email = some w) :
    loginCheck sha256hex store email password
      = if hashPassword sha256hex password w.salt = w.password_hash
          then .ok w else .error ⟨401, "Invalid credentials"⟩ := by
  unfold loginCheck
  rw [hfind]

theorem loginCheck_missing (sha256hex : String → String) (store : List UserDoc)
    (email password : String)
    (hfind : getUserByEmail store email = none) :
    loginCheck sha256hex store email password
      = .error ⟨401, "Invalid credentials"⟩ := by
  unfold loginCheck
  rw [hfind]

theorem validateDays_some (d : Int) :
    validateDays (some d)
      = if 1 ≤ d ∧ d ≤ 30 then .ok d else .error "validation error" := rfl

theorem listTripsHandler_auth (users : List UserDoc) (trips : List TripDoc)
    (authorization : Option String) (user : UserDoc)
    (hauth : resolveUser users authorization = some user) :
    listTripsHandler users trips authorization
      = .ok (List.insertionSort createdDesc
          (trips.filter (fun t => t.user_id = user.id))) := by
  unfold listTripsHandler
  rw [hauth]

/-! Example documents used by witnesses and counterexamples. -/

def exTokenUser : UserDoc :=
  { id := 1, name := "A", email := "a@x.com", password_hash := "h", salt := "s"
  , tokens := ["xy"] }

def exLoginUser : UserDoc :=
  { id := 2, name := "B", email := "b@x.com", password_hash := "spw", salt := "s"
  , tokens := [] }

def exUser7 : UserDoc :=
  { id := 1, name := "U", email := "u@x.com", password_hash := "h", salt := "s"
  , tokens := ["t1"] }

def exTripA : TripDoc :=
  { user_id := 1, title := "A", prompt := "p", days := 1, itinerary := []
  , destination := none, budget := none, created_at := 1 }

def exTripB : TripDoc :=
  { user_id := 2, title := "B", prompt := "p", days := 1, itinerary := []
  , destination := none, budget := none, created_at := 5 }

def exTripC : TripDoc :=
  { user_id := 1, title := "C", prompt := "p", days := 1, itinerary := []
  , destination := none, budget := none, created_at := 9 }

def exTrips : List TripDoc := [exTripA, exTripB, exTripC]

def exRes : List TripDoc :=
  List.insertionSort createdDesc (exTrips.filter (fun t => t.user_id = exUser7.id))

def exReq9 : TripCreateRequest :=
  ⟨"see sights", 2, none, some "fancy", none⟩

def exReq9b : TripCreateRequest :=
  ⟨"see sights", 2, none, none, none⟩

def exReq10 : TripCreateRequest :=
  ⟨"p", 2, some "", some "luxury", some ""⟩

/-- C1: for every prompt, every days ≥ 1 and every optional destination and
budget, `_generate_itinerary` returns exactly `days` DayPlan entries, and the
entry at 0-based index `i` has its `day` field equal to `i + 1`. -/
theorem c1_itinerary_length_and_day_numbers (prompt : String) (days : Nat)
    (destination budget : Option String) (h : 1 ≤ days) :
    (generateItinerary prompt days destination budget).length = days ∧
    ∀ i (hi : i < (generateItinerary prompt days destination budget).length),
      ((generateItinerary prompt days destination budget).get ⟨i, hi⟩).day
        = i + 1 := by
  constructor
  · simp [generateItinerary]
  · intro i hi
    simp [generateItinerary, mkDayPlan, List.get_eq_getElem]

/-- Witness for C1 at `days = 3`. -/
theorem c1_witness :
    (generateItinerary "p" 3 none none).length = 3 :=
  (c1_itinerary_length_and_day_numbers "p" 3 none none (by decide)).1

/-- C2 counterexample: the code's `.replace("Bearer ", "")` removes the
substring anywhere, not only a leading prefix — on the header `"xBearer y"`
it resolves a user holding token `"xy"`, while the spec's prefix-only
stripping resolves nobody. -/
theorem c2_counterexample :
    resolveUser [exTokenUser] (some "xBearer y") = some exTokenUser ∧
    resolveUserSpec [exTokenUser] (some "xBearer y") = none := by decide

/-- C2 amended: token resolution removes every occurrence of the substring
`"Bearer "` from the header and strips surrounding whitespace, then looks up
the exact remaining token; it yields a user only if that token is non-empty
and belongs to a stored user's token set, and yields nothing exactly when the
token is empty or matches no user. -/
theorem c2_token_resolution (store : List UserDoc)
    (authorization : Option String) :
    resolveUser store authorization
        = getUserByToken store
            (pyStrip (pyReplaceAll (authorization.getD "") "Bearer ")) ∧
    (∀ u : UserDoc, resolveUser store authorization = some u →
        extractToken authorization ≠ "" ∧ u ∈ store ∧
          extractToken authorization ∈ u.tokens) ∧
    (resolveUser store authorization = none ↔
        extractToken authorization = "" ∨
          ∀ u ∈ store, extractToken authorization ∉ u.tokens) := by
  refine ⟨rfl, ?_, ?_⟩
  · intro u hu
    by_cases ht : extractToken authorization = ""
    · simp [resolveUser, getUserByToken, ht] at hu
    · have hfind : store.find?
          (fun u => decide (extractToken authorization ∈ u.tokens)) = some u := by
        simpa [resolveUser, getUserByToken, ht] using hu
      have hp := List.find?_some hfind
      exact ⟨ht, List.mem_of_find?_eq_some hfind, by simpa using hp⟩
  · by_cases ht : extractToken authorization = ""
    · simp [resolveUser, getUserByToken, ht]
    · simp [resolveUser, getUserByToken, ht, List.find?_eq_none]

/-- Witness for C2's amended theorem on a well-formed header. -/
theorem c2_witness :
    extractToken (some "Bearer xy") ≠ "" ∧ exTokenUser ∈ [exTokenUser] ∧
      extractToken (some "Bearer xy") ∈ exTokenUser.tokens :=
  (c2_token_resolution [exTokenUser] (some "Bearer xy")).2.1 exTokenUser
    (by decide)

/-- C3: under the data-model invariant that emails are unique, login succeeds
iff some stored user has the given email and the SHA-256 hex digest of
`salt ++ password` equals the stored hash; every failure, whichever check
fired, carries the same 401 "Invalid credentials" error. -/
theorem c3_login_iff_and_uniform_error (sha256hex : String → String)
    (store : List UserDoc) (email password : String)
    (huniq : ∀ u ∈ store, ∀ v ∈ store, u.email = v.email → u = v) :
    ((∃ u, loginCheck sha256hex store email password = .ok u) ↔
      ∃ u ∈ store, u.email = email ∧
        sha256hex (u.salt ++ password) = u.password_hash) ∧
    (∀ e, loginCheck sha256hex store email password = .error e →
      e = ⟨401, "Invalid credentials"⟩) := by
  constructor
  · constructor
    · rintro ⟨u, hu⟩
      cases hfind : getUserByEmail store email with
      | none =>
        rw [loginCheck_missing sha256hex store email password hfind] at hu
        cases hu
      | some w =>
        rw [loginCheck_found sha256hex store email password w hfind] at hu
        by_cases hhash :
            hashPassword sha256hex password w.salt = w.password_hash
        · rw [if_pos hhash] at hu
          injection hu with huw
          subst huw
          have hp := List.find?_some hfind
          exact ⟨w, List.mem_of_find?_eq_some hfind, by simpa using hp, hhash⟩
        · rw [if_neg hhash] at hu; cases hu
    · rintro ⟨u, hmem, hemail, hhash⟩
      have hsome : (store.find? (fun v => decide (v.email = email))).isSome := by
        rw [List.find?_isSome]
        exact ⟨u, hmem, by simp [hemail]⟩
      obtain ⟨w, hw⟩ := Option.isSome_iff_exists.mp hsome
      have hw' : getUserByEmail store email = some w := hw
      have hwmem : w ∈ store := List.mem_of_find?_eq_some hw
      have hwemail : w.email = email := by
        have hp := List.find?_some hw
        simpa using hp
      have hwu : w = u := huniq w hwmem u hmem (hwemail.trans hemail.symm)
      refine ⟨w, ?_⟩
      rw [loginCheck_found sha256hex store email password w hw']
      rw [if_pos (show hashPassword sha256hex password w.salt = w.password_hash
        by rw [hwu]; exact hhash)]
  · intro e he
    cases hfind : getUserByEmail store email with
    | none =>
      rw [loginCheck_missing sha256hex store email password hfind] at he
      injection he with h
      exact h.symm
    | some w =>
      rw [loginCheck_found sha256hex store email password w hfind] at he
      by_cases hhash : hashPassword sha256hex password w.salt = w.password_hash
      · rw [if_pos hhash] at he; cases he
      · rw [if_neg hhash] at he
        injection he with h
        exact h.symm

/-- Witness for C3 on a one-user store with the identity standing in for the
digest parameter. -/
theorem c3_witness :
    (∃ u, loginCheck (fun s => s) [exLoginUser] "b@x.com" "pw" = .ok u) ↔
      ∃ u ∈ [exLoginUser], u.email = "b@x.com" ∧
        (fun s : String => s) (u.salt ++ "pw") = u.password_hash :=
  (c3_login_iff_and_uniform_error (fun s => s) [exLoginUser] "b@x.com" "pw"
    (by decide)).1

/-- C4: the budget always resolves to one of the three fixed hint triples;
an absent budget resolves to the standard triple; the resolution only
depends on the lower-cased budget string (case-insensitive matching); and
any string that lower-cases to neither "shoestring" nor "luxury" — in
particular every unrecognized value — resolves to the standard triple. -/
theorem c4_budget_resolution :
    (∀ b : Option String,
        resolveHints b = shoestringHints ∨ resolveHints b = standardHints ∨
          resolveHints b = luxuryHints) ∧
    resolveHints none = standardHints ∧
    (∀ s t : String, pyLower s = pyLower t →
        resolveHints (some s) = resolveHints (some t)) ∧
    (∀ s : String, pyLower s ≠ "shoestring" → pyLower s ≠ "luxury" →
        resolveHints (some s) = standardHints) := by
  refine ⟨?_, by decide, ?_, ?_⟩
  · intro b
    unfold resolveHints budgetHintGet
    split_ifs <;> simp
  · intro s t h
    by_cases hs : s = ""
    · by_cases ht : t = ""
      · rw [hs, ht]
      · exfalso
        exact ht ((pyLower_eq_empty_iff t).mp (by simpa [hs, pyLower] using h.symm))
    · by_cases ht : t = ""
      · exfalso
        exact hs ((pyLower_eq_empty_iff s).mp (by simpa [ht, pyLower] using h))
      · simp [resolveHints, pyOrStr, hs, ht, h]
  · intro s h1 h2
    by_cases hs : s = ""
    · rw [hs]; decide
    · have hpy : pyOrStr (some s) "standard" = s := by simp [pyOrStr, hs]
      unfold resolveHints
      rw [hpy]
      unfold budgetHintGet
      rw [if_neg h1]
      by_cases hst : pyLower s = "standard"
      · rw [if_pos hst]; rfl
      · rw [if_neg hst, if_neg h2]; rfl

/-- Witness for C4: an unrecognized budget falls back to the standard triple,
and resolution is insensitive to the case of "LUXURY". -/
theorem c4_witness :
    resolveHints (some "fancy") = standardHints ∧
    resolveHints (some "LUXURY") = resolveHints (some "luxury") :=
  ⟨c4_budget_resolution.2.2.2 "fancy" (by decide) (by decide),
   c4_budget_resolution.2.2.1 "LUXURY" "luxury" (by decide)⟩

/-- C5: the generator is deterministic — two calls with identical arguments
return identical itineraries (the embedding is a pure function of its
arguments; the source uses no randomness, time, or external state). -/
theorem c5_generator_deterministic (p₁ p₂ : String) (d₁ d₂ : Nat)
    (dest₁ dest₂ b₁ b₂ : Option String)
    (hp : p₁ = p₂) (hd : d₁ = d₂) (hdest : dest₁ = dest₂) (hb : b₁ = b₂) :
    generateItinerary p₁ d₁ dest₁ b₁ = generateItinerary p₂ d₂ dest₂ b₂ := by
  rw [hp, hd, hdest, hb]

/-- Witness for C5 at concrete identical arguments. -/
theorem c5_witness :
    generateItinerary "see" 2 (some "Paris") (some "luxury")
      = generateItinerary "see" 2 (some "Paris") (some "luxury") :=
  c5_generator_deterministic "see" "see" 2 2 (some "Paris") (some "Paris")
    (some "luxury") (some "luxury") rfl rfl rfl rfl

/-- C6: a request body whose `days` lies outside `1..30` is rejected at the
validation boundary with no trip generated or persisted (the trip collection
is returned unchanged); an omitted `days` validates to the default 3; and a
present `days` validates exactly when `1 ≤ days ≤ 30`. -/
theorem c6_days_boundary (users : List UserDoc) (trips : List TripDoc)
    (authorization : Option String) (raw : RawTripCreate) (now : Nat) :
    (∀ d : Int, raw.days = some d → ¬(1 ≤ d ∧ d ≤ 30) →
        postTrips users trips authorization raw now
          = (.error ⟨422, "validation error"⟩, trips)) ∧
    validateDays none = .ok 3 ∧
    (∀ d : Int, validateDays (some d) = .ok d ↔ (1 ≤ d ∧ d ≤ 30)) := by
  refine ⟨?_, rfl, ?_⟩
  · intro d hd hrange
    simp [postTrips, parseTripCreate, validateDays, hd, hrange]
  · intro d
    rw [validateDays_some]
    constructor
    · intro h
      by_cases hr : 1 ≤ d ∧ d ≤ 30
      · exact hr
      · rw [if_neg hr] at h; cases h
    · intro hr
      rw [if_pos hr]

/-- Witness for C6 at the boundary values 0 and 31. -/
theorem c6_witness :
    postTrips [] [] none ⟨"p", some 0, none, none, none⟩ 0
        = (.error ⟨422, "validation error"⟩, []) ∧
    postTrips [] [] none ⟨"p", some 31, none, none, none⟩ 0
        = (.error ⟨422, "validation error"⟩, []) :=
  ⟨(c6_days_boundary [] [] none ⟨"p", some 0, none, none, none⟩ 0).1 0 rfl
      (by decide),
   (c6_days_boundary [] [] none ⟨"p", some 31, none, none, none⟩ 0).1 31 rfl
      (by decide)⟩

/-- C7: for an authenticated user, the trip listing contains only that user's
trips, is a permutation of exactly the stored trips with that `user_id`, and
is sorted by `created_at` descending. -/
theorem c7_list_trips_scoped_and_sorted (users : List UserDoc)
    (trips : List TripDoc) (authorization : Option String) (user : UserDoc)
    (res : List TripDoc)
    (hauth : resolveUser users authorization = some user)
    (hres : listTripsHandler users trips authorization = .ok res) :
    (∀ t ∈ res, t.user_id = user.id) ∧
    res.Perm (trips.filter (fun t => t.user_id = user.id)) ∧
    res.Sorted createdDesc := by
  have hres' : res = List.insertionSort createdDesc
      (trips.filter (fun t => t.user_id = user.id)) := by
    rw [listTripsHandler_auth users trips authorization user hauth] at hres
    injection hres with h
    exact h.symm
  subst hres'
  refine ⟨?_, List.perm_insertionSort _ _, List.sorted_insertionSort _ _⟩
  intro t ht
  have hmem : t ∈ trips.filter (fun t => t.user_id = user.id) :=
    (List.perm_insertionSort createdDesc _).mem_iff.mp ht
  have hp := List.of_mem_filter hmem
  simpa using hp

/-- Witness for C7 on a store holding two of the caller's trips and one of
another user's. -/
theorem c7_witness :
    exRes.Perm (exTrips.filter (fun t => t.user_id = exUser7.id)) :=
  (c7_list_trips_scoped_and_sorted [exUser7] exTrips (some "Bearer t1")
    exUser7 exRes (by decide) rfl).2.1

/-- C8: every generated day's `morning` text is the fixed template ending in
exactly the first 80 characters of the prompt — nothing (no ellipsis) follows
the excerpt; the excerpt has length `min 80 (length prompt)`, and a prompt of
at most 80 characters is embedded whole. -/
theorem c8_morning_embeds_prompt_excerpt (prompt : String) (days : Nat)
    (destination budget : Option String) (dp : DayPlan)
    (hdp : dp ∈ generateItinerary prompt days destination budget) :
    dp.morning = "Start with " ++ (resolveHints budget).getD 0 ""
        ++ " near the main square. Stroll through a scenic district inspired by: "
        ++ pyTake80 prompt ∧
    (pyTake80 prompt).data = prompt.data.take 80 ∧
    (pyTake80 prompt).length = min 80 prompt.length ∧
    (prompt.length ≤ 80 → pyTake80 prompt = prompt) := by
  obtain ⟨i, _, rfl⟩ := List.mem_map.mp hdp
  refine ⟨rfl, rfl, ?_, ?_⟩
  · show (prompt.data.take 80).length = min 80 prompt.data.length
    exact List.length_take 80 prompt.data
  · intro hle
    obtain ⟨l⟩ := prompt
    show String.mk (l.take 80) = String.mk l
    rw [List.take_of_length_le hle]

/-- Witness for C8 on a one-day itinerary with a short prompt. -/
theorem c8_witness :
    (mkDayPlan (resolveHints none) "abc" none 1).morning
      = "Start with " ++ (resolveHints none).getD 0 ""
        ++ " near the main square. Stroll through a scenic district inspired by: "
        ++ pyTake80 "abc" :=
  (c8_morning_embeds_prompt_excerpt "abc" 1 none none
    (mkDayPlan (resolveHints none) "abc" none 1) (by decide)).1

/-- C9 counterexample: `create_trip` stores `req.budget` verbatim, so the
persisted `budget` of a trip created with budget "fancy" is "fancy" — none of
the three tier strings — and an absent budget is persisted as absent, not as
"standard". -/
theorem c9_counterexample :
    (createTripDoc 7 exReq9 5).budget = some "fancy" ∧
    ¬((createTripDoc 7 exReq9 5).budget = some "shoestring" ∨
      (createTripDoc 7 exReq9 5).budget = some "standard" ∨
      (createTripDoc 7 exReq9 5).budget = some "luxury") ∧
    (createTripDoc 7 exReq9b 5).budget = none := by decide

/-- C9 amended: the persisted trip's `budget` field is exactly the request's
budget value, absent or unrecognized included; the standard-tier fallback
applies only inside itinerary generation, not to the stored field. -/
theorem c9_budget_stored_verbatim (userId : Nat) (req : TripCreateRequest)
    (now : Nat) :
    (createTripDoc userId req now).budget = req.budget ∧
    (createTripDoc userId req now).itinerary
      = generateItinerary req.prompt req.days.toNat req.destination req.budget :=
  ⟨rfl, rfl⟩

/-- C10: the empty string is falsy in the source's `or` defaults — an
empty-string destination yields the "Explorer" placeholder in every theme
(exactly as an absent destination does), and an empty-string title is
replaced by the derived default title, which is never the empty string. -/
theorem c10_empty_string_like_absent (userId : Nat) (req : TripCreateRequest)
    (now : Nat) :
    (generateItinerary req.prompt req.days.toNat (some "") req.budget
        = generateItinerary req.prompt req.days.toNat none req.budget) ∧
    (req.destination = some "" →
      ∀ i (hi : i < (createTripDoc userId req now).itinerary.length),
        (((createTripDoc userId req now).itinerary).get ⟨i, hi⟩).theme
          = "Day " ++ toString (i + 1) ++ " • Explorer") ∧
    (req.title = some "" →
      (createTripDoc userId req now).title
          = pyOrStr req.destination "Custom Trip" ++ " • "
            ++ toString req.days ++ " days" ∧
        (createTripDoc userId req now).title ≠ "") := by
  refine ⟨?_, ?_, ?_⟩
  · simp [generateItinerary, mkDayPlan, pyOrStr]
  · intro hdest i hi
    simp [createTripDoc, generateItinerary, mkDayPlan, hdest, pyOrStr,
      List.get_eq_getElem]
    rw [String.append_assoc]
    congr 1
  · intro htitle
    have heq : (createTripDoc userId req now).title
        = pyOrStr req.destination "Custom Trip" ++ " • "
          ++ toString req.days ++ " days" := by
      simp [createTripDoc, buildTitle, htitle, pyOrStr]
    refine ⟨heq, ?_⟩
    rw [heq]
    intro hc
    have hdata := congrArg String.data hc
    simp [String.data_append] at hdata

/-- Witness for C10 on a request with empty-string destination and title. -/
theorem c10_witness :
    (createTripDoc 3 exReq10 0).title
        = pyOrStr exReq10.destination "Custom Trip" ++ " • "
          ++ toString exReq10.days ++ " days" ∧
      (createTripDoc 3 exReq10 0).title ≠ "" :=
  (c10_empty_string_like_absent 3 exReq10 0).2.2 rfl

end TravelPlanner
